import Mathlib

/-!
Shallow embedding of the notice module of `djc_helper` (`notice.py`):
the `Notice` data model with its eligibility predicate `need_show`, the
first-run tracker it consults, and the `NoticeManager` operations
`load`, `save`, `show_notices` and `add_notice`.

Timestamps are the fixed-format strings `"YYYY-MM-DD HH:MM:SS"` of the
source; the clock collaborator (`parse_time`, `format_time`) is modelled
as conversion between such strings and seconds counted from 0000-03-01.
The tracker (`first_run` module), the version comparator (`version_less`)
and the config (de)serialisation (`ConfigInterface` / `to_raw_type`) are
collaborators whose code is outside this repository slice; they are
modelled from the specification, as noted on each definition.
-/

/-- Numeric value of a list of decimal digit characters (big-endian). -/
def digitsToNat (cs : List Char) : Nat :=
  cs.foldl (fun acc c => acc * 10 + (c.toNat - 48)) 0

/-- Days elapsed from 0000-03-01 to the civil date `(y, m, d)`
(standard days-from-civil computation on a proleptic Gregorian calendar). -/
def daysFromCivil (y m d : Nat) : Nat :=
  let y' := if m ≤ 2 then y - 1 else y
  let era := y' / 400
  let yoe := y' % 400
  let mp := (m + 9) % 12
  let doy := (153 * mp + 2) / 5 + d - 1
  let doe := yoe * 365 + yoe / 4 - yoe / 100 + doy
  era * 146097 + doe

/-- Inverse of `daysFromCivil`: the civil date `(y, m, d)` of a day count. -/
def civilFromDays (z : Nat) : Nat × Nat × Nat :=
  let era := z / 146097
  let doe := z % 146097
  let yoe := (doe - doe / 1460 + doe / 36524 - doe / 146096) / 365
  let doy := doe - (365 * yoe + yoe / 4 - yoe / 100)
  let mp := (5 * doy + 2) / 153
  let d := doy - (153 * mp + 2) / 5 + 1
  let m := if mp < 10 then mp + 3 else mp - 9
  let y := yoe + era * 400 + (if m ≤ 2 then 1 else 0)
  (y, m, d)

/-- Modelled from the spec: the clock collaborator's `parse_time`
(`util.py`, outside the source slice). The spec fixes the sortable
timestamp format `YYYY-MM-DD HH:MM:SS`; an instant is represented by its
second count from the day-0 epoch, so that comparison of parsed
timestamps is comparison of these numbers. -/
def parse_time (t : String) : Nat :=
  let cs := t.toList
  let y := digitsToNat (cs.take 4)
  let mo := digitsToNat ((cs.drop 5).take 2)
  let d := digitsToNat ((cs.drop 8).take 2)
  let h := digitsToNat ((cs.drop 11).take 2)
  let mi := digitsToNat ((cs.drop 14).take 2)
  let s := digitsToNat ((cs.drop 17).take 2)
  daysFromCivil y mo d * 86400 + h * 3600 + mi * 60 + s

/-- Zero-pad a number to two decimal digits. -/
def pad2 (n : Nat) : String :=
  if n < 10 then "0" ++ toString n else toString n

/-- Zero-pad a number to four decimal digits. -/
def pad4 (n : Nat) : String :=
  (if n < 10 then "000" else if n < 100 then "00" else if n < 1000 then "0" else "") ++ toString n

/-- Modelled from the spec: the clock collaborator's `format_time`
(`util.py`, outside the source slice): renders a second count in the
fixed `YYYY-MM-DD HH:MM:SS` format. -/
def format_time (n : Nat) : String :=
  let z := n / 86400
  let rest := n % 86400
  let ymd := civilFromDays z
  pad4 ymd.1 ++ "-" ++ pad2 ymd.2.1 ++ "-" ++ pad2 ymd.2.2 ++ " " ++
    pad2 (rest / 3600) ++ ":" ++ pad2 (rest % 3600 / 60) ++ ":" ++ pad2 (rest % 60)

/-- Strict lexicographic order on lists of numeric version components. -/
def ltNatList : List Nat → List Nat → Bool
  | [], [] => false
  | [], _ :: _ => true
  | _ :: _, [] => false
  | a :: as, b :: bs => decide (a < b) || (a == b && ltNatList as bs)

/-- Numeric components of a dotted version string (a leading
non-digit prefix such as `v` is skipped). -/
def versionToList (v : String) : List Nat :=
  ((v.dropWhile (fun c => !c.isDigit)).splitOn ".").map (fun s => s.toNat?.getD 0)

/-- Modelled from the spec: the version comparator collaborator
(`update.version_less`, outside the source slice): `isLess(a, b)`,
a total order over dotted version strings, strict less-than. -/
def version_less (a b : String) : Bool :=
  ltNatList (versionToList a) (versionToList b)

/-- The valid `show_type` values (`valid_notice_show_type` in `notice.py`:
the values of the `NoticeShowType` class). -/
def valid_notice_show_type : List String :=
  ["once", "daily", "weekly", "monthly", "always", "deprecated"]

/-- One announcement record (`Notice` in `notice.py`); all fields are the
strings the source stores. -/
structure Notice where
  sender : String
  title : String
  message : String
  send_at : String
  show_type : String
  open_url : String
  expire_at : String
  show_only_before_version : String
deriving DecidableEq, Repr

/-- Default field values of `Notice.__init__`. `now_version` is the
running program's version constant (`version.py`, outside the source
slice), passed as a parameter. -/
def defaultNotice (now_version : String) : Notice where
  sender := "风之凌殇"
  title := "测试消息标题"
  message := "测试消息内容"
  send_at := "2021-05-11 00:00:00"
  show_type := "once"
  open_url := ""
  expire_at := "2121-05-11 00:00:00"
  show_only_before_version := now_version

/-- The tracker key of `Notice.get_first_run_key`:
`f"notice_need_show_{self.title}_{self.send_at}"`. -/
def get_first_run_key (n : Notice) : String :=
  "notice_need_show_" ++ n.title ++ "_" ++ n.send_at

/-- Modelled from the spec: the persistent first-run store (`first_run`
module, outside the source slice) — a mapping from key to the
last-triggered instant, here an association list whose first hit wins. -/
abbrev FirstRunState : Type := List (String × String)

/-- Modelled from the spec: the generic tracker query
`isFirstInWindow(key, window)`. Returns true iff no record exists or the
stored instant falls in a different window than now (per `sameWindow`),
and records `now` against the key if and only if it returns true. -/
def first_run_generic (sameWindow : String → String → Bool) (key now : String)
    (st : FirstRunState) : Bool × FirstRunState :=
  match List.lookup key st with
  | none => (true, (key, now) :: st)
  | some last => if sameWindow last now then (false, st) else (true, (key, now) :: st)

/-- Calendar day of an instant: the `YYYY-MM-DD` part of its timestamp. -/
def dayKey (t : String) : String := t.take 10

/-- Calendar month of an instant: the `YYYY-MM` part of its timestamp. -/
def monthKey (t : String) : String := t.take 7

/-- Calendar week of an instant, as a seven-day block of the day count
(the spec leaves the week convention to the tracker implementation). -/
def weekKey (t : String) : Nat := parse_time t / 86400 / 7

/-- Modelled from the spec: `is_first_run` — ONE_TIME window, true
exactly once ever for a given key (true iff no record exists). -/
def is_first_run (key now : String) (st : FirstRunState) : Bool × FirstRunState :=
  first_run_generic (fun _ _ => true) key now st

/-- Modelled from the spec: `is_daily_first_run` — true iff no record
exists or the stored instant falls on a different calendar day. -/
def is_daily_first_run (key now : String) (st : FirstRunState) : Bool × FirstRunState :=
  first_run_generic (fun a b => dayKey a == dayKey b) key now st

/-- Modelled from the spec: `is_weekly_first_run` — true iff no record
exists or the stored instant falls in a different calendar week. -/
def is_weekly_first_run (key now : String) (st : FirstRunState) : Bool × FirstRunState :=
  first_run_generic (fun a b => weekKey a == weekKey b) key now st

/-- Modelled from the spec: `is_monthly_first_run` — true iff no record
exists or the stored instant falls in a different calendar month. -/
def is_monthly_first_run (key now : String) (st : FirstRunState) : Bool × FirstRunState :=
  first_run_generic (fun a b => monthKey a == monthKey b) key now st

/-- Modelled from the spec: `reset_first_run(key)` clears any stored
instant for the key, making the next query return true. -/
def reset_first_run (key : String) (st : FirstRunState) : FirstRunState :=
  st.filter (fun p => !(p.1 == key))

/-- The eligibility predicate `Notice.need_show`, threaded through the
tracker state. Returns the decision and the state after the call.
`now` is the clock collaborator's current instant, `now_version` the
program version. -/
def need_show (n : Notice) (now now_version : String) (st : FirstRunState) :
    Bool × FirstRunState :=
  if parse_time n.expire_at < parse_time now then (false, st)
  else if n.show_only_before_version ≠ "" ∧ ¬ version_less now_version n.show_only_before_version
    then (false, st)
  else if n.show_type = "once" then is_first_run (get_first_run_key n) now st
  else if n.show_type = "daily" then is_daily_first_run (get_first_run_key n) now st
  else if n.show_type = "weekly" then is_weekly_first_run (get_first_run_key n) now st
  else if n.show_type = "monthly" then is_monthly_first_run (get_first_run_key n) now st
  else if n.show_type = "always" then (true, st)
  else if n.show_type = "deprecated" then (false, st)
  else (false, st)

/-- Comparison `Notice.__lt__`: compare by parsed `send_at`. -/
def noticeLT (a b : Notice) : Bool :=
  decide (parse_time a.send_at < parse_time b.send_at)

/-- Stable insertion of a notice into an already-built list: the new
element goes after every element strictly smaller than it and before the
first element not smaller, matching the (stable) sort of the source. -/
def insertNotice (x : Notice) : List Notice → List Notice
  | [] => [x]
  | y :: ys => if noticeLT y x then y :: insertNotice x ys else x :: y :: ys

/-- The sort `sorted(self.notices)` of `NoticeManager.load`: stable sort under
`Notice.__lt__`. A stable sort result is unique, so insertion sort is a
faithful model of the source's sort. -/
def sortNotices : List Notice → List Notice
  | [] => []
  | x :: xs => insertNotice x (sortNotices xs)

/-- A raw notice record as (de)serialised: an association list from field
name to field value (the JSON object of the persisted form). -/
abbrev RawNotice : Type := List (String × String)

/-- Modelled from the spec: `to_raw_type` (`data_struct.py`, outside the
source slice) — serialise a notice to its raw record, one entry per field. -/
def to_raw_type (n : Notice) : RawNotice :=
  [("sender", n.sender), ("title", n.title), ("message", n.message),
   ("send_at", n.send_at), ("show_type", n.show_type), ("open_url", n.open_url),
   ("expire_at", n.expire_at), ("show_only_before_version", n.show_only_before_version)]

/-- Modelled from the spec: `ConfigInterface.auto_update_config`
(`data_struct.py`, outside the source slice) — build a notice from a raw
record: unknown or missing fields keep the defaults of the receiver,
extra fields are ignored. -/
def auto_update_config (d : Notice) (raw : RawNotice) : Notice where
  sender := (List.lookup "sender" raw).getD d.sender
  title := (List.lookup "title" raw).getD d.title
  message := (List.lookup "message" raw).getD d.message
  send_at := (List.lookup "send_at" raw).getD d.send_at
  show_type := (List.lookup "show_type" raw).getD d.show_type
  open_url := (List.lookup "open_url" raw).getD d.open_url
  expire_at := (List.lookup "expire_at" raw).getD d.expire_at
  show_only_before_version :=
    (List.lookup "show_only_before_version" raw).getD d.show_only_before_version

/-- The manager operation `NoticeManager.load`, file I/O abstracted to its content: `records`
is the parsed JSON list of the notice file, or `none` when the file is
missing (in which case the collection is left as it is). Each record is
deserialised starting from `Notice()` defaults, appended, and the whole
collection is then sorted by `send_at`. -/
def load (existing : List Notice) (records : Option (List RawNotice))
    (now_version : String) : List Notice :=
  match records with
  | none => existing
  | some rs => sortNotices (existing ++ rs.map (auto_update_config (defaultNotice now_version)))

/-- The manager operation `NoticeManager.save`, file I/O abstracted to its content: the list of
raw records written to disk. -/
def save (notices : List Notice) : List RawNotice :=
  notices.map to_raw_type

/-- The filtering pass `filter(lambda notice: notice.need_show(), self.notices)` of
`show_notices`: the eligible notices in collection order, threading the
tracker state through the sequential `need_show` calls. -/
def filterNeedShow (now now_version : String) :
    List Notice → FirstRunState → List Notice × FirstRunState
  | [], st => ([], st)
  | n :: ns, st =>
    let r := need_show n now now_version st
    let rest := filterNeedShow now now_version ns r.2
    (if r.1 then n :: rest.1 else rest.1, rest.2)

/-- One invocation of the display collaborator (`message_box`). -/
structure DisplayCall where
  message : String
  title : String
  open_url : String
deriving DecidableEq, Repr

/-- The displayed title `f"公告({idx + 1}/{len(valid_notices)}) - {notice.title}"`. -/
def mkTitle (k total : Nat) (title : String) : String :=
  "公告(" ++ toString k ++ "/" ++ toString total ++ ") - " ++ title

/-- The manager operation `NoticeManager.show_notices`: filter the collection through
`need_show`, then emit one display call per eligible notice with a
1-based position indicator. Returns the display calls in order and the
tracker state after the filtering. -/
def show_notices (notices : List Notice) (now now_version : String)
    (st : FirstRunState) : List DisplayCall × FirstRunState :=
  let valid := filterNeedShow now now_version notices st
  (valid.1.enum.map
      (fun p => ⟨p.2.message, mkTitle (p.1 + 1) valid.1.length p.2.title, p.2.open_url⟩),
    valid.2)

/-- The manager operation `NoticeManager.add_notice`: validate the show type, refuse exact
duplicates by `(title, message, sender)`, otherwise append a new notice.
`now` is the clock collaborator's current instant; `valid_duration` is in
seconds, defaulting to 7 days; an empty `send_at` defaults to `now`. -/
def add_notice (notices : List Notice) (title message sender : String)
    (send_at : String) (show_type : String) (open_url : String)
    (valid_duration : Option Nat) (show_only_before_version : String)
    (now : String) : List Notice :=
  let sendAt := if send_at = "" then now else send_at
  let vd := valid_duration.getD (7 * 86400)
  if ¬ (show_type ∈ valid_notice_show_type) then notices
  else if notices.any (fun o => o.title == title && o.message == message && o.sender == sender)
    then notices
  else
    notices ++ [{ sender := sender, title := title, message := message, send_at := sendAt,
                  show_type := show_type, open_url := open_url,
                  expire_at := format_time (parse_time now + vd),
                  show_only_before_version := show_only_before_version }]

/-! ## Helper lemmas -/

/-- A strict lexicographic order is irreflexive. -/
theorem ltNatList_irrefl (l : List Nat) : ltNatList l l = false := by
  induction l with
  | nil => rfl
  | cons a as ih => simp [ltNatList, ih]

/-- The version comparator is a strict order: no version is less than itself. -/
theorem version_less_irrefl (v : String) : version_less v v = false :=
  ltNatList_irrefl _

/-- Splitting at a separator character absent from both left parts is
unambiguous. -/
theorem sep_inj (c : Char) : ∀ (t1 t2 s1 s2 : List Char), c ∉ t1 → c ∉ t2 →
    t1 ++ c :: s1 = t2 ++ c :: s2 → t1 = t2 ∧ s1 = s2 := by
  intro t1
  induction t1 with
  | nil =>
    intro t2 s1 s2 _ h2 he
    cases t2 with
    | nil =>
      simp at he
      exact ⟨rfl, he⟩
    | cons b t2' =>
      simp at he
      exact absurd (he.1 ▸ List.mem_cons_self b t2') h2
  | cons a t1' ih =>
    intro t2 s1 s2 h1 h2 he
    cases t2 with
    | nil =>
      simp at he
      exact absurd (he.1 ▸ List.mem_cons_self a t1') h1
    | cons b t2' =>
      simp at he
      have hrec := ih t2' s1 s2 (fun hm => h1 (List.mem_cons_of_mem a hm))
        (fun hm => h2 (List.mem_cons_of_mem b hm)) he.2
      exact ⟨by rw [he.1, hrec.1], hrec.2⟩

/-- Membership in an insertion. -/
theorem mem_insertNotice (z x : Notice) : ∀ l : List Notice,
    z ∈ insertNotice x l ↔ z = x ∨ z ∈ l := by
  intro l
  induction l with
  | nil => simp [insertNotice]
  | cons y ys ih =>
    unfold insertNotice
    by_cases hlt : noticeLT y x
    · rw [if_pos hlt]
      simp only [List.mem_cons, ih]
      tauto
    · rw [if_neg hlt]
      simp only [List.mem_cons]

/-- Insertion preserves sortedness by parsed `send_at`. -/
theorem insertNotice_pairwise (x : Notice) (l : List Notice)
    (h : l.Pairwise (fun a b => parse_time a.send_at ≤ parse_time b.send_at)) :
    (insertNotice x l).Pairwise (fun a b => parse_time a.send_at ≤ parse_time b.send_at) := by
  induction l with
  | nil => simp [insertNotice]
  | cons y ys ih =>
    rw [List.pairwise_cons] at h
    unfold insertNotice
    by_cases hlt : noticeLT y x
    · rw [if_pos hlt]
      rw [List.pairwise_cons]
      refine ⟨?_, ih h.2⟩
      intro z hz
      rcases (mem_insertNotice z x ys).1 hz with hz | hz
      · subst hz
        exact Nat.le_of_lt (of_decide_eq_true hlt)
      · exact h.1 z hz
    · rw [if_neg hlt]
      rw [List.pairwise_cons]
      have hxy : parse_time x.send_at ≤ parse_time y.send_at := by
        simpa [noticeLT] using hlt
      refine ⟨?_, List.pairwise_cons.mpr h⟩
      intro z hz
      rcases List.mem_cons.1 hz with hz | hz
      · subst hz; exact hxy
      · exact Nat.le_trans hxy (h.1 z hz)

/-- The sorted collection is pairwise ordered by parsed `send_at`. -/
theorem sortNotices_pairwise (l : List Notice) :
    (sortNotices l).Pairwise (fun a b => parse_time a.send_at ≤ parse_time b.send_at) := by
  induction l with
  | nil => simp [sortNotices]
  | cons x xs ih => exact insertNotice_pairwise x _ ih

/-- Stability of insertion: elements of any one `send_at` key keep their
relative order (the inserted element lands before its equals). -/
theorem filter_insertNotice (x : Notice) (k : Nat) : ∀ l : List Notice,
    (insertNotice x l).filter (fun n => parse_time n.send_at == k)
      = (x :: l).filter (fun n => parse_time n.send_at == k) := by
  intro l
  induction l with
  | nil => rfl
  | cons y ys ih =>
    unfold insertNotice
    by_cases hlt : noticeLT y x
    · rw [if_pos hlt]
      by_cases hx : parse_time x.send_at = k
      · by_cases hy : parse_time y.send_at = k
        · exfalso
          have := of_decide_eq_true hlt
          omega
        · simp [List.filter_cons, hx, hy, ih]
      · by_cases hy : parse_time y.send_at = k
        · simp [List.filter_cons, hx, hy, ih]
        · simp [List.filter_cons, hx, hy, ih]
    · rw [if_neg hlt]

/-- Stability of the sort: filtering by any one `send_at` key commutes
with sorting, i.e. ties keep their prior relative order. -/
theorem filter_sortNotices (k : Nat) : ∀ l : List Notice,
    (sortNotices l).filter (fun n => parse_time n.send_at == k)
      = l.filter (fun n => parse_time n.send_at == k) := by
  intro l
  induction l with
  | nil => rfl
  | cons x xs ih =>
    unfold sortNotices
    rw [filter_insertNotice]
    by_cases hx : parse_time x.send_at = k
    · simp [List.filter_cons, hx, ih]
    · simp [List.filter_cons, hx, ih]

/-- The eligible notices are a sublist of the collection: filtering
preserves collection order. -/
theorem filterNeedShow_sublist (now nv : String) : ∀ (l : List Notice) (st : FirstRunState),
    (filterNeedShow now nv l st).1.Sublist l := by
  intro l
  induction l with
  | nil => intro st; exact List.nil_sublist _
  | cons n ns ih =>
    intro st
    have hdef : filterNeedShow now nv (n :: ns) st
        = (if (need_show n now nv st).1
            then n :: (filterNeedShow now nv ns (need_show n now nv st).2).1
            else (filterNeedShow now nv ns (need_show n now nv st).2).1,
           (filterNeedShow now nv ns (need_show n now nv st).2).2) := rfl
    rw [hdef]
    by_cases hb : (need_show n now nv st).1
    · simp only [hb, if_true]
      exact List.Sublist.cons₂ n (ih _)
    · simp only [hb, if_false]
      exact List.Sublist.cons n (ih _)

/-- Display calls of `show_notices`: one per eligible notice, in order,
with the 1-based position indicator over the count of eligible notices. -/
theorem show_notices_spec (l : List Notice) (now nv : String) (st : FirstRunState) :
    (show_notices l now nv st).1.length = (filterNeedShow now nv l st).1.length ∧
      ∀ (i : Nat) (vn : Notice), (filterNeedShow now nv l st).1[i]? = some vn →
        (show_notices l now nv st).1[i]?
          = some ⟨vn.message, mkTitle (i + 1) (filterNeedShow now nv l st).1.length vn.title,
              vn.open_url⟩ := by
  have hdef : (show_notices l now nv st).1
      = (filterNeedShow now nv l st).1.enum.map
          (fun p => ⟨p.2.message,
            mkTitle (p.1 + 1) (filterNeedShow now nv l st).1.length p.2.title,
            p.2.open_url⟩) := rfl
  constructor
  · rw [hdef]
    simp
  · intro i vn hv
    rw [hdef]
    simp [List.getElem?_map, List.getElem?_enum, hv]

/-- Deserialising the serialisation of a notice restores it exactly. -/
theorem roundtrip_notice (d n : Notice) : auto_update_config d (to_raw_type n) = n := rfl

/-! ## Claims -/

/-- C1: for every notice whose `expire_at` is strictly in the past
relative to now, `need_show` returns false regardless of `show_type`,
version gate or tracker state, and leaves the tracker state untouched
(the expiry check short-circuits before any tracker window is consulted
or consumed). -/
theorem need_show_expired_false (n : Notice) (now now_version : String) (st : FirstRunState)
    (h : parse_time n.expire_at < parse_time now) :
    need_show n now now_version st = (false, st) := by
  unfold need_show
  simp [h]

theorem need_show_expired_false_witness :
    parse_time ({ defaultNotice "1.0.0" with
          expire_at := "2000-01-01 00:00:00" } : Notice).expire_at
        < parse_time "2021-01-01 00:00:00" ∧
      need_show { defaultNotice "1.0.0" with expire_at := "2000-01-01 00:00:00" }
        "2021-01-01 00:00:00" "1.0.0" [("k", "v")] = (false, [("k", "v")]) :=
  ⟨by decide, need_show_expired_false _ _ _ _ (by decide)⟩

/-- C2: for an unexpired, version-eligible notice with `show_type` ONCE
whose tracker key has never been recorded, the first `need_show` call
returns true and claims the window (records now under the key); an
immediate second call on the resulting state returns false. -/
theorem need_show_once_first_true_then_false (n : Notice) (now now_version : String)
    (st : FirstRunState)
    (h1 : ¬ parse_time n.expire_at < parse_time now)
    (h2 : n.show_only_before_version = "" ∨ version_less now_version n.show_only_before_version)
    (h3 : n.show_type = "once")
    (h4 : List.lookup (get_first_run_key n) st = none) :
    need_show n now now_version st = (true, (get_first_run_key n, now) :: st) ∧
      (need_show n now now_version ((get_first_run_key n, now) :: st)).1 = false := by
  have hv : ¬ (n.show_only_before_version ≠ "" ∧
      ¬ version_less now_version n.show_only_before_version = true) := by
    intro ⟨ha, hb⟩
    rcases h2 with h2 | h2
    · exact ha h2
    · exact hb h2
  constructor
  · unfold need_show
    rw [if_neg h1, if_neg hv, if_pos h3]
    unfold is_first_run first_run_generic
    rw [h4]
  · have hl : List.lookup (get_first_run_key n) ((get_first_run_key n, now) :: st)
        = some now := by simp [List.lookup]
    unfold need_show
    rw [if_neg h1, if_neg hv, if_pos h3]
    unfold is_first_run first_run_generic
    rw [hl]
    simp

theorem need_show_once_first_true_then_false_witness :
    List.lookup (get_first_run_key ⟨"s", "t", "m", "2021-05-11 00:00:00", "once", "",
        "2121-05-11 00:00:00", ""⟩) ([] : FirstRunState) = none ∧
      (need_show ⟨"s", "t", "m", "2021-05-11 00:00:00", "once", "", "2121-05-11 00:00:00", ""⟩
          "2021-06-01 00:00:00" "1.3.0" []
        = (true, [(get_first_run_key ⟨"s", "t", "m", "2021-05-11 00:00:00", "once", "",
            "2121-05-11 00:00:00", ""⟩, "2021-06-01 00:00:00")]) ∧
        (need_show ⟨"s", "t", "m", "2021-05-11 00:00:00", "once", "", "2121-05-11 00:00:00", ""⟩
            "2021-06-01 00:00:00" "1.3.0"
            [(get_first_run_key ⟨"s", "t", "m", "2021-05-11 00:00:00", "once", "",
              "2121-05-11 00:00:00", ""⟩, "2021-06-01 00:00:00")]).1 = false) :=
  ⟨rfl, need_show_once_first_true_then_false _ _ _ _ (by decide) (Or.inl rfl) rfl rfl⟩

/-- C3: for an unexpired, version-eligible notice with `show_type`
ALWAYS, every `need_show` call returns true and returns the tracker
state unchanged, for every tracker state — so tracker state (and any
reset) is unobservable through such a notice. -/
theorem need_show_always_true_stateless (n : Notice) (now now_version : String)
    (st : FirstRunState)
    (h1 : ¬ parse_time n.expire_at < parse_time now)
    (h2 : n.show_only_before_version = "" ∨ version_less now_version n.show_only_before_version)
    (h3 : n.show_type = "always") :
    need_show n now now_version st = (true, st) := by
  unfold need_show
  simp [h1, h3]
  intro hne
  rcases h2 with h2 | h2
  · exact absurd h2 hne
  · exact h2

theorem need_show_always_true_stateless_witness :
    (⟨"s", "t", "m", "2021-01-01 00:00:00", "always", "", "2121-01-01 00:00:00", ""⟩
          : Notice).show_type = "always" ∧
      need_show ⟨"s", "t", "m", "2021-01-01 00:00:00", "always", "", "2121-01-01 00:00:00", ""⟩
        "2021-06-01 00:00:00" "1.3.0" [("x", "y")] = (true, [("x", "y")]) :=
  ⟨rfl, need_show_always_true_stateless _ _ _ _ (by decide) (Or.inl rfl) rfl⟩

/-- C4: for every notice whose `show_type` is DEPRECATED, or is not one
of the six enumerated tokens, `need_show` returns false and leaves the
state unchanged in every tracker state (in particular in any state
produced by `reset_first_run`). -/
theorem need_show_deprecated_invalid_false (n : Notice) (now now_version : String)
    (h : n.show_type = "deprecated" ∨ ¬ n.show_type ∈ valid_notice_show_type) :
    ∀ st : FirstRunState, need_show n now now_version st = (false, st) := by
  intro st
  have honce : n.show_type ≠ "once" := by
    rcases h with h | h
    · rw [h]; decide
    · intro e; exact h (by rw [e]; decide)
  have hdaily : n.show_type ≠ "daily" := by
    rcases h with h | h
    · rw [h]; decide
    · intro e; exact h (by rw [e]; decide)
  have hweekly : n.show_type ≠ "weekly" := by
    rcases h with h | h
    · rw [h]; decide
    · intro e; exact h (by rw [e]; decide)
  have hmonthly : n.show_type ≠ "monthly" := by
    rcases h with h | h
    · rw [h]; decide
    · intro e; exact h (by rw [e]; decide)
  have halways : n.show_type ≠ "always" := by
    rcases h with h | h
    · rw [h]; decide
    · intro e; exact h (by rw [e]; decide)
  unfold need_show
  simp [honce, hdaily, hweekly, hmonthly, halways]

theorem need_show_deprecated_invalid_false_witness :
    (⟨"s", "t", "m", "2021-01-01 00:00:00", "deprecated", "", "2121-01-01 00:00:00", ""⟩
          : Notice).show_type = "deprecated" ∧
      need_show ⟨"s", "t", "m", "2021-01-01 00:00:00", "deprecated", "", "2121-01-01 00:00:00", ""⟩
        "2021-06-01 00:00:00" "1.3.0"
        (reset_first_run (get_first_run_key ⟨"s", "t", "m", "2021-01-01 00:00:00", "deprecated",
          "", "2121-01-01 00:00:00", ""⟩) [])
        = (false, reset_first_run (get_first_run_key ⟨"s", "t", "m", "2021-01-01 00:00:00",
            "deprecated", "", "2121-01-01 00:00:00", ""⟩) []) :=
  ⟨rfl, need_show_deprecated_invalid_false _ _ _ (Or.inl rfl) _⟩

/-- C5 (counterexample): the tracker key is not injective on
`(title, send_at)` — two notices with distinct pairs share the key when
an underscore in the title shifts the separator. -/
theorem get_first_run_key_collision :
    get_first_run_key ⟨"s", "a_b", "m", "c", "once", "", "2121-05-11 00:00:00", ""⟩ =
        get_first_run_key ⟨"s", "a", "m", "b_c", "once", "", "2121-05-11 00:00:00", ""⟩ ∧
      ¬ ((Notice.title ⟨"s", "a_b", "m", "c", "once", "", "2121-05-11 00:00:00", ""⟩,
            Notice.send_at ⟨"s", "a_b", "m", "c", "once", "", "2121-05-11 00:00:00", ""⟩) =
          (Notice.title ⟨"s", "a", "m", "b_c", "once", "", "2121-05-11 00:00:00", ""⟩,
            Notice.send_at ⟨"s", "a", "m", "b_c", "once", "", "2121-05-11 00:00:00", ""⟩)) := by
  constructor
  · rfl
  · decide

/-- C5 (amended): two notices with identical `title` and `send_at`
always get the same tracker key, and the key is injective on
`(title, send_at)` provided neither title contains the underscore
character (the key separator). -/
theorem get_first_run_key_inj_no_underscore (n1 n2 : Notice)
    (h1 : '_' ∉ n1.title.data) (h2 : '_' ∉ n2.title.data) :
    get_first_run_key n1 = get_first_run_key n2 ↔
      n1.title = n2.title ∧ n1.send_at = n2.send_at := by
  constructor
  · intro he
    unfold get_first_run_key at he
    have hd := congrArg String.data he
    simp only [String.data_append, List.append_assoc, List.cons_append, List.nil_append,
      List.cons.injEq, true_and] at hd
    have hr := sep_inj '_' _ _ _ _ h1 h2 hd
    exact ⟨congrArg String.mk hr.1, congrArg String.mk hr.2⟩
  · intro ⟨ht, hs⟩
    unfold get_first_run_key
    rw [ht, hs]

theorem get_first_run_key_inj_no_underscore_witness :
    ('_' ∉ ("t" : String).data) ∧
      (Notice.title ⟨"s", "t", "m1", "2021-05-11 00:00:00", "once", "", "e", ""⟩
          = Notice.title ⟨"s", "t", "m2", "2021-05-11 00:00:00", "once", "", "e", ""⟩ ∧
        Notice.send_at ⟨"s", "t", "m1", "2021-05-11 00:00:00", "once", "", "e", ""⟩
          = Notice.send_at ⟨"s", "t", "m2", "2021-05-11 00:00:00", "once", "", "e", ""⟩) :=
  ⟨by decide,
    (get_first_run_key_inj_no_underscore
      ⟨"s", "t", "m1", "2021-05-11 00:00:00", "once", "", "e", ""⟩
      ⟨"s", "t", "m2", "2021-05-11 00:00:00", "once", "", "e", ""⟩
      (by decide) (by decide)).mp rfl⟩

/-- C6: `add_notice` with a `show_type` outside the enumerated set
leaves the collection exactly unchanged, for every collection and
arguments (the total model raises no exception). -/
theorem add_notice_invalid_show_type_unchanged (notices : List Notice)
    (title message sender send_at show_type open_url sobv now : String)
    (vd : Option Nat) (h : ¬ show_type ∈ valid_notice_show_type) :
    add_notice notices title message sender send_at show_type open_url vd sobv now
      = notices := by
  simp [add_notice, h]

theorem add_notice_invalid_show_type_unchanged_witness :
    ¬ "bogus" ∈ valid_notice_show_type ∧
      add_notice [defaultNotice "1.0.0"] "t" "m" "s" "" "bogus" "" none ""
          "2021-06-01 00:00:00"
        = [defaultNotice "1.0.0"] :=
  ⟨by decide, add_notice_invalid_show_type_unchanged _ _ _ _ _ _ _ _ _ _ (by decide)⟩

/-- C7: when the collection already holds a notice with the same
`(title, message, sender)` triple, `add_notice` with that triple is
refused (collection unchanged) whatever the other arguments; and when
the triple is new and the show type valid, a first add appends exactly
one notice and a second add with the same triple is refused, leaving
the first result unchanged. -/
theorem add_notice_duplicate_guard (notices : List Notice)
    (title message sender send_at show_type open_url sobv now : String) (vd : Option Nat)
    (send_at' show_type' open_url' sobv' now' : String) (vd' : Option Nat) :
    ((∃ o ∈ notices, o.title = title ∧ o.message = message ∧ o.sender = sender) →
      add_notice notices title message sender send_at show_type open_url vd sobv now
        = notices) ∧
      (show_type ∈ valid_notice_show_type →
        (¬ ∃ o ∈ notices, o.title = title ∧ o.message = message ∧ o.sender = sender) →
        (add_notice notices title message sender send_at show_type open_url vd sobv now).length
            = notices.length + 1 ∧
          add_notice
              (add_notice notices title message sender send_at show_type open_url vd sobv now)
              title message sender send_at' show_type' open_url' vd' sobv' now'
            = add_notice notices title message sender send_at show_type open_url vd sobv
                now) := by
  constructor
  · intro h
    have hany : notices.any
        (fun o => o.title == title && o.message == message && o.sender == sender) = true := by
      rcases h with ⟨o, ho, h1, h2, h3⟩
      exact List.any_eq_true.mpr ⟨o, ho, by simp [h1, h2, h3]⟩
    simp [add_notice, hany]
  · intro hty hnd
    have hany : notices.any
        (fun o => o.title == title && o.message == message && o.sender == sender) = false := by
      rw [List.any_eq_false]
      intro o ho
      simp only [Bool.and_eq_true, beq_iff_eq, not_and]
      intro h1 h2
      exact hnd ⟨o, ho, h1.1, h1.2, h2⟩
    constructor
    · simp [add_notice, hty, hany]
    · simp [add_notice, hty, hany, List.any_append]

theorem add_notice_duplicate_guard_witness :
    (∃ o ∈ [(⟨"s", "t", "m", "2021-05-11 00:00:00", "once", "", "e", ""⟩ : Notice)],
        o.title = "t" ∧ o.message = "m" ∧ o.sender = "s") ∧
      add_notice [(⟨"s", "t", "m", "2021-05-11 00:00:00", "once", "", "e", ""⟩ : Notice)]
          "t" "m" "s" "2022-01-01 00:00:00" "daily" "" none "" "2021-06-01 00:00:00"
        = [(⟨"s", "t", "m", "2021-05-11 00:00:00", "once", "", "e", ""⟩ : Notice)] :=
  ⟨by decide,
    (add_notice_duplicate_guard _ "t" "m" "s" "2022-01-01 00:00:00" "daily" "" "" 
      "2021-06-01 00:00:00" none "" "" "" "" "" none).1 (by decide)⟩

/-- C8: after a load the collection is pairwise sorted ascending by
parsed `send_at`, ties keep their prior relative order (filtering by any
one key commutes with the sort), and `show_notices` presents the
eligible notices in collection order (a sublist of the collection), the
`i`-th display carrying the 1-based `i+1 of N` position indicator with
its notice's title, message and URL. -/
theorem load_sorted_stable_show_order (existing : List Notice) (records : List RawNotice)
    (nv now now_version : String) (st : FirstRunState) :
    (load existing (some records) nv).Pairwise
        (fun a b => parse_time a.send_at ≤ parse_time b.send_at) ∧
      (∀ k : Nat,
        (load existing (some records) nv).filter (fun n => parse_time n.send_at == k)
          = (existing ++ records.map (auto_update_config (defaultNotice nv))).filter
              (fun n => parse_time n.send_at == k)) ∧
      (filterNeedShow now now_version (load existing (some records) nv) st).1.Sublist
        (load existing (some records) nv) ∧
      (show_notices (load existing (some records) nv) now now_version st).1.length
        = (filterNeedShow now now_version (load existing (some records) nv) st).1.length ∧
      ∀ (i : Nat) (vn : Notice),
        (filterNeedShow now now_version (load existing (some records) nv) st).1[i]? = some vn →
          (show_notices (load existing (some records) nv) now now_version st).1[i]?
            = some ⟨vn.message,
                mkTitle (i + 1)
                  (filterNeedShow now now_version (load existing (some records) nv) st).1.length
                  vn.title,
                vn.open_url⟩ := by
  have hl : load existing (some records) nv
      = sortNotices (existing ++ records.map (auto_update_config (defaultNotice nv))) := rfl
  refine ⟨?_, ?_, ?_, ?_, ?_⟩
  · rw [hl]
    exact sortNotices_pairwise _
  · intro k
    rw [hl]
    exact filter_sortNotices k _
  · exact filterNeedShow_sublist now now_version _ st
  · exact (show_notices_spec _ now now_version st).1
  · exact (show_notices_spec _ now now_version st).2

theorem load_sorted_stable_show_order_witness :
    (filterNeedShow "2021-06-01 00:00:00" "1.0.0"
          (load [⟨"s", "t", "m", "2021-01-01 00:00:00", "always", "",
            "2121-01-01 00:00:00", ""⟩] (some []) "1.0.0") []).1[0]?
        = some ⟨"s", "t", "m", "2021-01-01 00:00:00", "always", "",
            "2121-01-01 00:00:00", ""⟩ ∧
      (show_notices
          (load [⟨"s", "t", "m", "2021-01-01 00:00:00", "always", "",
            "2121-01-01 00:00:00", ""⟩] (some []) "1.0.0")
          "2021-06-01 00:00:00" "1.0.0" []).1[0]?
        = some ⟨"m",
            mkTitle 1
              (filterNeedShow "2021-06-01 00:00:00" "1.0.0"
                (load [⟨"s", "t", "m", "2021-01-01 00:00:00", "always", "",
                  "2121-01-01 00:00:00", ""⟩] (some []) "1.0.0") []).1.length
              "t",
            ""⟩ :=
  ⟨by decide,
    (load_sorted_stable_show_order
        [⟨"s", "t", "m", "2021-01-01 00:00:00", "always", "", "2121-01-01 00:00:00", ""⟩]
        [] "1.0.0" "2021-06-01 00:00:00" "1.0.0" []).2.2.2.2 0
      ⟨"s", "t", "m", "2021-01-01 00:00:00", "always", "", "2121-01-01 00:00:00", ""⟩
      (by decide)⟩

/-- C9: saving a collection and loading it into a fresh manager (not
from remote) reproduces exactly the sort by `send_at` of the saved
collection — every field of every notice survives the round trip. -/
theorem save_load_roundtrip (ns : List Notice) (nv : String) :
    load [] (some (save ns)) nv = sortNotices ns := by
  simp only [load, save, List.nil_append, List.map_map]
  have hf : (auto_update_config (defaultNotice nv) ∘ to_raw_type) = id :=
    funext (fun n => roundtrip_notice _ n)
  rw [hf, List.map_id]

/-- C10: a default-constructed notice (hence a deserialised record that
omits `show_only_before_version`) carries the current program version in
that field; when the program version is non-empty, the version gate then
makes `need_show` return false in every state for every notice whose
`show_only_before_version` equals the current version, since no version
is strictly less than itself. -/
theorem default_version_gate_false (now_version : String) (h : now_version ≠ "") :
    (defaultNotice now_version).show_only_before_version = now_version ∧
      (∀ raw : RawNotice, List.lookup "show_only_before_version" raw = none →
        (auto_update_config (defaultNotice now_version) raw).show_only_before_version
          = now_version) ∧
      (∀ n : Notice, n.show_only_before_version = now_version →
        ∀ (now : String) (st : FirstRunState), need_show n now now_version st = (false, st)) := by
  refine ⟨rfl, ?_, ?_⟩
  · intro raw hraw
    simp [auto_update_config, hraw, defaultNotice]
  · intro n hn now st
    have hv : n.show_only_before_version ≠ "" ∧
        ¬ version_less now_version n.show_only_before_version = true :=
      ⟨by rw [hn]; exact h, by rw [hn]; simp [version_less_irrefl]⟩
    unfold need_show
    by_cases e1 : parse_time n.expire_at < parse_time now
    · rw [if_pos e1]
    · rw [if_neg e1, if_pos hv]

theorem default_version_gate_false_witness :
    ("1.2.3" : String) ≠ "" ∧
      need_show (defaultNotice "1.2.3") "2021-06-01 00:00:00" "1.2.3" [("a", "b")]
        = (false, [("a", "b")]) :=
  ⟨by decide,
    (default_version_gate_false "1.2.3" (by decide)).2.2 (defaultNotice "1.2.3") rfl
      "2021-06-01 00:00:00" [("a", "b")]⟩
